import Mathlib

/-!
Shallow embedding of the SWAPI → Odoo migration pipeline from `src/main.py`
and of the standalone fetcher in `src/a.py`.

Modelling conventions:
* Network responses are pre-supplied by an `Env` record: `env.people id`,
  `env.planets key`, `env.images id` give the outcome of the corresponding
  GET (with `none` meaning the fetch returned no usable record, exactly the
  `None` that `SWAPI.fetch_data` returns on a non-200 status, or an invalid
  image in `SWIMG`).
* The Odoo sink is a `Sink` record holding the `res.planet` and `res.partner`
  tables plus the next fresh id; `search` by name walks the table in order
  (first match), `create` appends a row and returns the fresh id, mirroring
  `Odoo.find_by_name` and `Odoo.create`.
* Python exceptions are an `Except Err` result; the sink state and the list
  of performed external calls (`Ev` trace) are returned on both the ok and
  the error path, since the calls did happen before the exception was raised.
* `asyncio.as_completed` in `DataProcessor.process_data` awaits the person
  tasks in a nondeterministic completion order; the embedding serialises the
  run in id order (one legal schedule).  `SWIMG.get_data` on a list is
  modelled with an explicit completion order (an arbitrary permutation of
  the per-id tasks), because that function's contract is exactly about
  independence from completion order.
-/

/-- A planet record as decoded from `GET planets/{id}` (`src/main.py:550`). -/
structure PlanetRec where
  name : String
  diameter : String
  population : String
  rotation_period : String
  orbital_period : String
deriving DecidableEq, Repr

/-- A person record as decoded from `GET people/{id}` (`src/main.py:589`). -/
structure PersonRec where
  name : String
  homeworld : String
deriving DecidableEq, Repr

/-- Raw image bytes fetched from SWIMG. -/
abbrev Img := List Nat

/-- Python exceptions that the pipeline can raise. -/
inductive Err where
  /-- `ValueError("Invalid credentials")` re-raised from `Odoo.conn`. -/
  | authError
  /-- the `Exception(reply["error"])` raised by `Odoo.json_rpc` on an error envelope. -/
  | createError
  /-- the `TypeError` raised by `base64.b64encode(None)` in `DataProcessor.people`. -/
  | typeError
  /-- an `aiohttp` client error propagating out of an HTTP call. -/
  | netError
deriving DecidableEq, Repr

/-- Payload of a `res.planet` create call, as built in `DataProcessor.planet`
(`src/main.py:566-574`): the four numeric fields are `None` when the source
value was the literal string `"unknown"`. -/
structure PlanetParams where
  name : String
  diameter : Option String
  population : Option String
  rotation_period : Option String
  orbital_period : Option String
deriving DecidableEq, Repr

/-- Payload of a `res.partner` create call, as built in `DataProcessor.people`
(`src/main.py:607-611`). -/
structure PersonParams where
  name : String
  image_1920 : String
  planet : Option Nat
deriving DecidableEq, Repr

/-- The Odoo sink state: the two tables touched by the pipeline and the next
fresh record id. -/
structure Sink where
  planetTab : List (Nat × PlanetParams)
  partnerTab : List (Nat × PersonParams)
  nextId : Nat
deriving DecidableEq, Repr

/-- The external world a run observes: authentication outcome, the people
count, and the outcome of every single-item fetch. -/
structure Env where
  /-- result of the `common.login` RPC (`none`/`some 0` are falsy in Python). -/
  authUid : Option Nat
  /-- the `count` field of the people summary endpoint. -/
  peopleCount : Nat
  /-- outcome of `GET people/{id}` (`none` = fetch failed, `fetch_data` returned `None`). -/
  people : Nat → Option PersonRec
  /-- outcome of `GET planets/{key}`, keyed by the parsed trailing path segment. -/
  planets : String → Option PlanetRec
  /-- outcome of `SWIMG` fetch+validate for an id (`none` = invalid image). -/
  images : Nat → Option Img
  /-- the sink answers a `res.planet` create with an error envelope. -/
  planetCreateErr : Bool
  /-- the sink answers a `res.partner` create with an error envelope. -/
  partnerCreateErr : Bool

/-- External calls performed by a run, in order. -/
inductive Ev where
  | login
  | fetchPerson (id : Nat)
  | fetchPlanet (key : String)
  | fetchImage (id : Nat)
  | findPartner (nm : String)
  | findPlanet (nm : String)
  | createPlanet (p : PlanetParams)
  | createPartner (p : PersonParams)
deriving DecidableEq, Repr

/-- Python truthiness of an optional integer (Odoo's `login` returns `False`
or a uid; `find_by_name` returns `None` or an id; `0` is falsy too). -/
def truthyOpt : Option Nat → Bool
  | none => false
  | some n => n != 0

/-- Odoo `search` with a `('name','=',nm)` domain, as used by
`Odoo.find_by_name` (`src/main.py:405-428`): the first row whose name matches,
or `none`. -/
def findByName {α : Type} (tab : List (Nat × α)) (nameOf : α → String)
    (nm : String) : Option Nat :=
  (List.find? (fun r => decide (nameOf r.2 = nm)) tab).map Prod.fst

/-- Normalisation applied to the numeric planet fields
(`src/main.py:568-573`): `v if v != 'unknown' else None`. -/
def normUnknown (v : String) : Option String :=
  if v = "unknown" then none else some v

/-- Stand-in for `base64.b64encode(...).decode("utf-8")` on a present
payload.  No claim depends on the exact encoding, only on the facts that a
string is produced from the bytes and that encoding a `None` payload is a
`TypeError` (handled at the call site in `people`).  Real base64 output has
length divisible by four, so it can never be the 7-character literal
`"unknown"`; the stand-in (decimal digits) cannot either. -/
def b64encode (b : Img) : String :=
  String.join (b.map (fun n => Nat.repr (n % 256)))

/-- Character-list splitter on `'/'`, auxiliary to `parseTrailing`. -/
def splitSlashAux : List Char → List Char → List (List Char)
  | [], acc => [acc.reverse]
  | c :: cs, acc =>
      if c = '/' then acc.reverse :: splitSlashAux cs []
      else splitSlashAux cs (c :: acc)

/-- The parent-reference parser from `DataProcessor.people`
(`src/main.py:601-602`): `homeworld.rstrip('/').split('/')[-1]`. -/
def parseTrailing (url : String) : String :=
  let cs := (url.data.reverse.dropWhile (fun c => c = '/')).reverse
  String.mk ((splitSlashAux cs []).getLastD [])

/-- `DataProcessor.planet` (`src/main.py:538-579`): fetch the planet, return
`none` on a failed fetch, otherwise find-by-name or create in `res.planet`,
returning the sink id.  The returned triple is (result, sink after the call,
external calls performed). -/
def planet (env : Env) (s : Sink) (key : String) :
    Except Err (Option Nat) × Sink × List Ev :=
  match env.planets key with
  | none => (Except.ok none, s, [Ev.fetchPlanet key])
  | some pr =>
      let nm := pr.name
      let found := findByName s.planetTab PlanetParams.name nm
      if truthyOpt found then
        (Except.ok found, s, [Ev.fetchPlanet key, Ev.findPlanet nm])
      else
        let prm : PlanetParams :=
          ⟨nm, normUnknown pr.diameter, normUnknown pr.population,
           normUnknown pr.rotation_period, normUnknown pr.orbital_period⟩
        if env.planetCreateErr then
          (Except.error Err.createError, s,
           [Ev.fetchPlanet key, Ev.findPlanet nm, Ev.createPlanet prm])
        else
          (Except.ok (some s.nextId),
           ⟨s.planetTab ++ [(s.nextId, prm)], s.partnerTab, s.nextId + 1⟩,
           [Ev.fetchPlanet key, Ev.findPlanet nm, Ev.createPlanet prm])

/-- `DataProcessor.people` (`src/main.py:581-616`): fetch the person, return
on a failed fetch, find-by-name short-circuit, else resolve the homeworld
planet inline, fetch the image, and create the partner record.  A `none`
image payload makes `base64.b64encode` raise `TypeError`. -/
def people (env : Env) (s : Sink) (id : Nat) :
    Except Err (Option Nat) × Sink × List Ev :=
  match env.people id with
  | none => (Except.ok none, s, [Ev.fetchPerson id])
  | some pr =>
      let nm := pr.name
      let found := findByName s.partnerTab PersonParams.name nm
      if truthyOpt found then
        (Except.ok found, s, [Ev.fetchPerson id, Ev.findPartner nm])
      else
        match planet env s (parseTrailing pr.homeworld) with
        | (Except.error e, s1, ptr) =>
            (Except.error e, s1, Ev.fetchPerson id :: Ev.findPartner nm :: ptr)
        | (Except.ok planetId, s1, ptr) =>
            match env.images id with
            | none =>
                (Except.error Err.typeError, s1,
                 Ev.fetchPerson id :: Ev.findPartner nm ::
                   (ptr ++ [Ev.fetchImage id]))
            | some bs =>
                let prm : PersonParams := ⟨nm, b64encode bs, planetId⟩
                if env.partnerCreateErr then
                  (Except.error Err.createError, s1,
                   Ev.fetchPerson id :: Ev.findPartner nm ::
                     (ptr ++ [Ev.fetchImage id, Ev.createPartner prm]))
                else
                  (Except.ok (some s1.nextId),
                   ⟨s1.planetTab, s1.partnerTab ++ [(s1.nextId, prm)],
                    s1.nextId + 1⟩,
                   Ev.fetchPerson id :: Ev.findPartner nm ::
                     (ptr ++ [Ev.fetchImage id, Ev.createPartner prm]))

/-- The person-task loop of `DataProcessor.process_data`
(`src/main.py:628-633`), serialised in id order: an exception raised by any
task propagates out of `await coro` and aborts the loop. -/
def runPeople (env : Env) : List Nat → Sink → Except Err Unit × Sink × List Ev
  | [], s => (Except.ok (), s, [])
  | id :: rest, s =>
      match people env s id with
      | (Except.error e, s1, tr) => (Except.error e, s1, tr)
      | (Except.ok _, s1, tr) =>
          match runPeople env rest s1 with
          | (r, s2, tr2) => (r, s2, tr ++ tr2)

/-- `DataProcessor.process_data` (`src/main.py:618-633`): authenticate
(aborting on falsy uid), then run the person tasks for ids `1..count`. -/
def processData (env : Env) (s : Sink) : Except Err Unit × Sink × List Ev :=
  if truthyOpt env.authUid then
    match runPeople env (List.range' 1 env.peopleCount) s with
    | (r, s1, tr) => (r, s1, Ev.login :: tr)
  else (Except.error Err.authError, s, [Ev.login])

/-- An HTTP response that was actually received (status plus decoded body). -/
structure HttpResp where
  status : Nat
  body : String
deriving DecidableEq, Repr

/-- Outcome of attempting an HTTP request: a response, or a client-side
network error. -/
inductive NetResult where
  | resp (r : HttpResp)
  | netError
deriving DecidableEq, Repr

/-- `SWAPI.fetch_data` (`src/main.py:146-164`): body on status 200, `None`
(after logging) on every other status; a network error from `session.get`
propagates uncaught. -/
def fetchData : NetResult → Except Err (Option String)
  | NetResult.netError => Except.error Err.netError
  | NetResult.resp r =>
      if r.status = 200 then Except.ok (some r.body) else Except.ok none

/-- `fetch_planet_info` from `src/a.py`: body on 200, `None` on 404, `None`
on any other status, `None` on a caught client error. -/
def fetchPlanetInfo : NetResult → Option String
  | NetResult.netError => none
  | NetResult.resp r =>
      if r.status = 200 then some r.body
      else if r.status = 404 then none
      else none

/-- The per-id task of `SWIMG.get_data` (`src/main.py:269-277`): the result
is tagged with its id. -/
def fetchAndValidate (env : Env) (id : Nat) : Nat × Option Img :=
  (id, env.images id)

/-- The `results[id] = result` dictionary population over the completion
order of `asyncio.as_completed` (`src/main.py:281-286`); a later assignment
to the same key overwrites an earlier one. -/
def collectInto (m : Nat → Option (Option Img)) :
    List (Nat × Option Img) → Nat → Option (Option Img)
  | [], k => m k
  | p :: rest, k =>
      collectInto (fun j => if j = p.1 then some p.2 else m j) rest k

/-- The list branch of `SWIMG.get_data` (`src/main.py:279-287`): populate the
dictionary in completion order, then read it back in input-id order
(`[results[id] for id in ids]`). -/
def swimgGetDataList (ids : List Nat)
    (completed : List (Nat × Option Img)) : List (Option (Option Img)) :=
  ids.map (fun id => collectInto (fun _ => none) completed id)

/-- The empty sink a fresh run starts against. -/
def sink0 : Sink := ⟨[], [], 1⟩

deriving instance DecidableEq for Except

/-- Dataset for the barrier counterexample: two people on two distinct
planets, every fetch succeeding, authentication succeeding. -/
def cEnvA : Env :=
  ⟨some 1, 2,
   fun id =>
     if id = 1 then some ⟨"Luke", "x/1"⟩
     else if id = 2 then some ⟨"Leia", "x/2"⟩
     else none,
   fun k =>
     if k = "1" then some ⟨"Tatooine", "10465", "200000", "23", "304"⟩
     else if k = "2" then some ⟨"Alderaan", "12500", "unknown", "24", "364"⟩
     else none,
   fun _ => some [1, 2],
   false, false⟩

/-- Dataset where the only person's homeworld fetch fails but the person's
image is valid. -/
def cEnvB : Env :=
  ⟨some 1, 1,
   fun id => if id = 1 then some ⟨"Luke", "x/9"⟩ else none,
   fun _ => none,
   fun _ => some [7],
   false, false⟩

/-- Dataset where authentication succeeds but the sink rejects the only
partner create call with an error envelope. -/
def cEnvC : Env :=
  ⟨some 1, 1,
   fun id => if id = 1 then some ⟨"Luke", "x/9"⟩ else none,
   fun _ => none,
   fun _ => some [7],
   false, true⟩

/-- Dataset whose only planet is literally named `"unknown"`. -/
def cEnvD : Env :=
  ⟨some 1, 1,
   fun id => if id = 1 then some ⟨"Luke", "x/3"⟩ else none,
   fun k => if k = "3" then some ⟨"unknown", "10", "1000", "24", "365"⟩ else none,
   fun _ => some [7],
   false, false⟩

/-- Dataset where person 1's image is invalid (null asset payload) while
person 2 is entirely fine. -/
def cEnvE : Env :=
  ⟨some 1, 2,
   fun id =>
     if id = 1 then some ⟨"Luke", "x/3"⟩
     else if id = 2 then some ⟨"Leia", "x/3"⟩
     else none,
   fun k => if k = "3" then some ⟨"Tatooine", "10465", "200000", "23", "304"⟩ else none,
   fun id => if id = 1 then none else some [5],
   false, false⟩

/-- Events of the parent (planet) pipeline stage. -/
def isParentEv : Ev → Bool
  | Ev.fetchPlanet _ => true
  | Ev.findPlanet _ => true
  | Ev.createPlanet _ => true
  | _ => false

/-- Creation of a child (person) sink record. -/
def isChildCreate : Ev → Bool
  | Ev.createPartner _ => true
  | _ => false

/-- An asset (image) fetch. -/
def isFetchImage : Ev → Bool
  | Ev.fetchImage _ => true
  | _ => false

/-- The two-phase barrier property of a run trace: once any child record has
been created, no parent-stage work happens any more (all parent tasks
completed before any child consumed a parent id). -/
def noParentAfterChild : List Ev → Bool
  | [] => true
  | e :: rest =>
      if isChildCreate e then
        rest.all (fun x => !isParentEv x) && noParentAfterChild rest
      else noParentAfterChild rest

/-- Does the planet table contain a row with this sink id? -/
def anyId (tab : List (Nat × PlanetParams)) (pid : Nat) : Bool :=
  tab.any (fun r => r.1 == pid)

/-- The parent reference of a partner payload points at an existing row of
the sink's planet table. -/
def refOk (s : Sink) (p : PersonParams) : Bool :=
  match p.planet with
  | some pid => anyId s.planetTab pid
  | none => false

/-- Claim C2 as stated: every partner row's `planet` field is a sink id that
exists in the sink's planet table. -/
def refOkAll (s : Sink) : Bool :=
  s.partnerTab.all (fun r => refOk s r.2)

/-- The invariant the code actually maintains: every partner row references
an existing planet row or carries a null parent reference. -/
def childRefsOk (s : Sink) : Prop :=
  ∀ r ∈ s.partnerTab, r.2.planet = none ∨ refOk s r.2 = true

/-- Claim C7 as stated, per event: no field of an outgoing create payload is
the literal string `"unknown"`. -/
def cleanEv : Ev → Bool
  | Ev.createPlanet q =>
      !(decide (q.name = "unknown")) && !(decide (q.diameter = some "unknown")) &&
      !(decide (q.population = some "unknown")) &&
      !(decide (q.rotation_period = some "unknown")) &&
      !(decide (q.orbital_period = some "unknown"))
  | Ev.createPartner q =>
      !(decide (q.name = "unknown")) && !(decide (q.image_1920 = "unknown"))
  | _ => true

/-- What the code guarantees of a planet create payload: the four numeric
fields never carry the literal `"unknown"` (they were normalised to `none`). -/
def planetNormOk (q : PlanetParams) : Bool :=
  !(decide (q.diameter = some "unknown")) &&
  !(decide (q.population = some "unknown")) &&
  !(decide (q.rotation_period = some "unknown")) &&
  !(decide (q.orbital_period = some "unknown"))

/-- Dataset whose authentication is rejected. -/
def cEnvAuthFail : Env :=
  ⟨none, 3, fun _ => none, fun _ => none, fun _ => none, false, false⟩

/-- A sink already holding planet `Tatooine` (id 4) and partner `Luke`
(id 5), for idempotence witnesses. -/
def sW : Sink :=
  ⟨[(4, ⟨"Tatooine", some "10465", some "200000", some "23", some "304"⟩)],
   [(5, ⟨"Luke", "", some 4⟩)], 6⟩

/-- Dataset matching the pre-populated sink `sW`. -/
def cEnvW : Env :=
  ⟨some 1, 1,
   fun id => if id = 1 then some ⟨"Luke", "x/1"⟩ else none,
   fun k => if k = "1" then some ⟨"Tatooine", "10465", "200000", "23", "304"⟩ else none,
   fun _ => some [7],
   false, false⟩

/-- Dataset for the image-batch witness: image 1 valid, image 2 invalid. -/
def cEnvF : Env :=
  ⟨some 1, 3,
   fun _ => none, fun _ => none,
   fun id => if id = 1 then some [10] else if id = 2 then none else some [id],
   false, false⟩

/-! ## Counterexamples and evaluations on concrete datasets -/

/-- C1 COUNTEREXAMPLE.  On dataset `cEnvA` (two people on two distinct
planets, every fetch and create succeeding) the run violates the claimed
two-phase barrier: person 1's sink record is created before person 2's
planet is fetched and upserted, so parent-stage work happens after a child
create — there is no parent batch that completes first (and no identifier
map exists in the code at all). -/
theorem c1_no_phase_barrier :
    noParentAfterChild (processData cEnvA sink0).2.2 = false := by decide

/-- C2 COUNTEREXAMPLE.  On dataset `cEnvB` the only person's homeworld fetch
fails, `DataProcessor.planet` returns `None`, and the person is nevertheless
created with `planet = None`: the final sink violates the no-dangling-
references property as stated. -/
theorem c2_dangling_reference :
    refOkAll (processData cEnvB sink0).2.1 = false := by decide

/-- C3 COUNTEREXAMPLE.  On dataset `cEnvB` the child whose parent cannot be
resolved is NOT skipped: a sink record is created for it (with a null
`planet` field) and the run completes successfully. -/
theorem c3_child_created_not_skipped :
    ((processData cEnvB sink0).2.1.partnerTab.any
      (fun r => decide (r.2.planet = none))) = true ∧
    (processData cEnvB sink0).1 = Except.ok () := by decide

/-- C4 EVALUATION at the failing input.  On dataset `cEnvE` person 1's asset
payload is null (invalid image); `base64.b64encode(None)` raises `TypeError`,
so person 1's core record is NOT created with an empty asset field — no
record is created at all, and the exception propagates through
`process_data`'s `await coro`, aborting the run before person 2 is
processed. -/
theorem c4_null_asset_aborts :
    (processData cEnvE sink0).1 = Except.error Err.typeError ∧
    (processData cEnvE sink0).2.1.partnerTab = [] := by decide

/-- C6 COUNTEREXAMPLE.  On dataset `cEnvC` authentication succeeds but the
sink rejects the one partner create call with an error envelope; the
exception propagates and the run aborts, so the run does not abort only on
authentication failure, and no summary counting the failure exists. -/
theorem c6_create_error_aborts_run :
    truthyOpt cEnvC.authUid = true ∧
    (processData cEnvC sink0).1 = Except.error Err.createError := by decide

/-- C7 COUNTEREXAMPLE.  On dataset `cEnvD` the planet is literally named
`"unknown"`; the name field is not normalised, so the outgoing planet create
payload contains the literal string `"unknown"`. -/
theorem c7_unknown_reaches_sink :
    (processData cEnvD sink0).2.2.all cleanEv = false := by decide

/-- C8 COUNTEREXAMPLE.  `SWAPI.fetch_data` does not fail on a non-404
non-2xx status: at status 500 it returns `None` exactly as it does at 404
(so null is not returned exactly on 404, and no `TransientFetchError`
exists); `fetch_planet_info` in `src/a.py` likewise returns `None`. -/
theorem c8_non404_returns_null :
    (¬ (∀ r : HttpResp, r.status ≠ 404 → r.status ≠ 200 →
        ∃ e, fetchData (NetResult.resp r) = Except.error e)) ∧
    fetchPlanetInfo (NetResult.resp ⟨500, "boom"⟩) = none := by
  constructor
  · intro h
    rcases h ⟨500, "boom"⟩ (by decide) (by decide) with ⟨e, he⟩
    simp [fetchData] at he
  · decide

/-! ## Helper lemmas about the sink operations -/

lemma truthyOpt_eq_true {o : Option Nat} (h : truthyOpt o = true) :
    ∃ n, o = some n ∧ n ≠ 0 := by
  cases o with
  | none => simp [truthyOpt] at h
  | some n => exact ⟨n, rfl, by simpa [truthyOpt] using h⟩

lemma findByName_mem {α : Type} {tab : List (Nat × α)} {f : α → String}
    {nm : String} {n : Nat} (h : findByName tab f nm = some n) :
    ∃ x, (n, x) ∈ tab ∧ f x = nm := by
  unfold findByName at h
  rcases Option.map_eq_some'.mp h with ⟨a, hfind, hfst⟩
  have hmem := List.mem_of_find?_eq_some hfind
  have hp := List.find?_some hfind
  rcases a with ⟨m, x⟩
  simp only at hfst
  subst hfst
  simp only [decide_eq_true_eq] at hp
  exact ⟨x, hmem, hp⟩

lemma anyId_append_left {tab tab' : List (Nat × PlanetParams)} {pid : Nat}
    (h : anyId tab pid = true) : anyId (tab ++ tab') pid = true := by
  unfold anyId at h ⊢
  rw [List.any_append, h, Bool.true_or]

lemma anyId_of_mem {tab : List (Nat × PlanetParams)} {pid : Nat}
    {x : PlanetParams} (h : (pid, x) ∈ tab) : anyId tab pid = true := by
  unfold anyId
  rw [List.any_eq_true]
  exact ⟨(pid, x), h, by simp⟩

lemma normUnknown_ne (v : String) : normUnknown v ≠ some "unknown" := by
  unfold normUnknown
  split
  · exact fun hc => Option.noConfusion hc
  · next h => exact fun hc => h (Option.some.inj hc)

/-! ## Structural lemmas about `planet` -/

lemma planet_partnerTab (env : Env) (s : Sink) (key : String) :
    ((planet env s key).2.1).partnerTab = s.partnerTab := by
  cases hp : env.planets key with
  | none => simp [planet, hp]
  | some pr =>
    cases ht : truthyOpt (findByName s.planetTab PlanetParams.name pr.name) with
    | true => simp [planet, hp, ht]
    | false =>
      cases hce : env.planetCreateErr with
      | true => simp [planet, hp, ht, hce]
      | false => simp [planet, hp, ht, hce]

lemma planet_planetTab_ext (env : Env) (s : Sink) (key : String) :
    ∃ ext, ((planet env s key).2.1).planetTab = s.planetTab ++ ext := by
  cases hp : env.planets key with
  | none => exact ⟨[], by simp [planet, hp]⟩
  | some pr =>
    cases ht : truthyOpt (findByName s.planetTab PlanetParams.name pr.name) with
    | true => exact ⟨[], by simp [planet, hp, ht]⟩
    | false =>
      cases hce : env.planetCreateErr with
      | true => exact ⟨[], by simp [planet, hp, ht, hce]⟩
      | false =>
        exact ⟨[(s.nextId,
          ⟨pr.name, normUnknown pr.diameter, normUnknown pr.population,
           normUnknown pr.rotation_period, normUnknown pr.orbital_period⟩)],
          by simp [planet, hp, ht, hce]⟩

lemma planet_ok_mem (env : Env) (s : Sink) (key : String) (n : Nat)
    (h : (planet env s key).1 = Except.ok (some n)) :
    anyId ((planet env s key).2.1).planetTab n = true := by
  cases hp : env.planets key with
  | none => simp [planet, hp] at h
  | some pr =>
    cases ht : truthyOpt (findByName s.planetTab PlanetParams.name pr.name) with
    | true =>
      simp [planet, hp, ht] at h ⊢
      rcases findByName_mem h with ⟨x, hmem, _⟩
      simpa using anyId_of_mem hmem
    | false =>
      cases hce : env.planetCreateErr with
      | true => simp [planet, hp, ht, hce] at h
      | false =>
        simp [planet, hp, ht, hce] at h ⊢
        subst h
        simp [anyId, List.any_append]

lemma planet_events_no_childCreate (env : Env) (s : Sink) (key : String) :
    ∀ e ∈ (planet env s key).2.2, isChildCreate e = false := by
  intro e he
  cases hp : env.planets key with
  | none =>
    simp [planet, hp] at he
    subst he; rfl
  | some pr =>
    cases ht : truthyOpt (findByName s.planetTab PlanetParams.name pr.name) with
    | true =>
      simp [planet, hp, ht] at he
      rcases he with rfl | rfl <;> rfl
    | false =>
      cases hce : env.planetCreateErr with
      | true =>
        simp [planet, hp, ht, hce] at he
        rcases he with rfl | rfl | rfl <;> rfl
      | false =>
        simp [planet, hp, ht, hce] at he
        rcases he with rfl | rfl | rfl <;> rfl

lemma planet_createPlanet_norm (env : Env) (s : Sink) (key : String)
    (q : PlanetParams) (hq : Ev.createPlanet q ∈ (planet env s key).2.2) :
    planetNormOk q = true := by
  cases hp : env.planets key with
  | none => simp [planet, hp] at hq
  | some pr =>
    cases ht : truthyOpt (findByName s.planetTab PlanetParams.name pr.name) with
    | true => simp [planet, hp, ht] at hq
    | false =>
      have hnorm : planetNormOk
          ⟨pr.name, normUnknown pr.diameter, normUnknown pr.population,
           normUnknown pr.rotation_period, normUnknown pr.orbital_period⟩ = true := by
        simp [planetNormOk, normUnknown_ne]
      cases hce : env.planetCreateErr with
      | true =>
        simp [planet, hp, ht, hce] at hq
        subst hq; exact hnorm
      | false =>
        simp [planet, hp, ht, hce] at hq
        subst hq; exact hnorm

/-! ## Structural lemmas about `people` -/

lemma mem_dropLast_two_cons {a b x y e : Ev} {l : List Ev}
    (he : e ∈ (a :: b :: (l ++ [x, y])).dropLast) :
    e = a ∨ e = b ∨ e ∈ l ∨ e = x := by
  have hsh : a :: b :: (l ++ [x, y]) = (a :: b :: (l ++ [x])) ++ [y] := by simp
  rw [hsh, List.dropLast_concat] at he
  rcases List.mem_cons.mp he with rfl | h2
  · exact Or.inl rfl
  rcases List.mem_cons.mp h2 with rfl | h3
  · exact Or.inr (Or.inl rfl)
  rcases List.mem_append.mp h3 with h4 | h5
  · exact Or.inr (Or.inr (Or.inl h4))
  · exact Or.inr (Or.inr (Or.inr (List.mem_singleton.mp h5)))

lemma people_no_childCreate_before_last (env : Env) (s : Sink) (id : Nat) :
    ∀ e ∈ ((people env s id).2.2).dropLast, isChildCreate e = false := by
  intro e he
  cases hp : env.people id with
  | none =>
    have htr : (people env s id).2.2 = [Ev.fetchPerson id] := by simp [people, hp]
    rw [htr] at he
    rcases List.mem_singleton.mp ((List.dropLast_sublist _).subset he) with rfl
    rfl
  | some pr =>
    cases ht : truthyOpt (findByName s.partnerTab PersonParams.name pr.name) with
    | true =>
      have htr : (people env s id).2.2 =
          [Ev.fetchPerson id, Ev.findPartner pr.name] := by simp [people, hp, ht]
      rw [htr] at he
      rcases List.mem_cons.mp ((List.dropLast_sublist _).subset he) with rfl | h2
      · rfl
      rcases List.mem_cons.mp h2 with rfl | h3
      · rfl
      · simp at h3
    | false =>
      rcases hpl : planet env s (parseTrailing pr.homeworld) with ⟨pres, s1, ptr⟩
      have hptr : ∀ x ∈ ptr, isChildCreate x = false := by
        intro x hx
        have h0 := planet_events_no_childCreate env s (parseTrailing pr.homeworld) x
        rw [hpl] at h0
        exact h0 hx
      cases pres with
      | error e0 =>
        have htr : (people env s id).2.2 =
            Ev.fetchPerson id :: Ev.findPartner pr.name :: ptr := by
          simp [people, hp, ht, hpl]
        rw [htr] at he
        have hmem := (List.dropLast_sublist _).subset he
        rcases List.mem_cons.mp hmem with rfl | h2
        · rfl
        rcases List.mem_cons.mp h2 with rfl | h3
        · rfl
        · exact hptr e h3
      | ok planetId =>
        cases hi : env.images id with
        | none =>
          have htr : (people env s id).2.2 =
              Ev.fetchPerson id :: Ev.findPartner pr.name ::
                (ptr ++ [Ev.fetchImage id]) := by
            simp [people, hp, ht, hpl, hi]
          rw [htr] at he
          have hmem := (List.dropLast_sublist _).subset he
          rcases List.mem_cons.mp hmem with rfl | h2
          · rfl
          rcases List.mem_cons.mp h2 with rfl | h3
          · rfl
          rcases List.mem_append.mp h3 with h4 | h5
          · exact hptr e h4
          · rcases List.mem_singleton.mp h5 with rfl
            rfl
        | some bs =>
          have htr : (people env s id).2.2 =
              Ev.fetchPerson id :: Ev.findPartner pr.name ::
                (ptr ++ [Ev.fetchImage id,
                  Ev.createPartner ⟨pr.name, b64encode bs, planetId⟩]) := by
            cases hce : env.partnerCreateErr <;> simp [people, hp, ht, hpl, hi, hce]
          rw [htr] at he
          rcases mem_dropLast_two_cons he with rfl | rfl | h4 | rfl
          · rfl
          · rfl
          · exact hptr e h4
          · rfl

lemma people_createPlanet_norm (env : Env) (s : Sink) (id : Nat)
    (q : PlanetParams) (hq : Ev.createPlanet q ∈ (people env s id).2.2) :
    planetNormOk q = true := by
  cases hp : env.people id with
  | none => simp [people, hp] at hq
  | some pr =>
    cases ht : truthyOpt (findByName s.partnerTab PersonParams.name pr.name) with
    | true => simp [people, hp, ht] at hq
    | false =>
      rcases hpl : planet env s (parseTrailing pr.homeworld) with ⟨pres, s1, ptr⟩
      have happ : Ev.createPlanet q ∈ ptr → planetNormOk q = true := by
        intro hx
        have h0 := planet_createPlanet_norm env s (parseTrailing pr.homeworld) q
        rw [hpl] at h0
        exact h0 hx
      cases pres with
      | error e0 =>
        simp [people, hp, ht, hpl] at hq
        exact happ hq
      | ok planetId =>
        cases hi : env.images id with
        | none =>
          simp [people, hp, ht, hpl, hi] at hq
          exact happ hq
        | some bs =>
          cases hce : env.partnerCreateErr with
          | true =>
            simp [people, hp, ht, hpl, hi, hce] at hq
            exact happ hq
          | false =>
            simp [people, hp, ht, hpl, hi, hce] at hq
            exact happ hq

lemma people_childRefsOk (env : Env) (s : Sink) (id : Nat)
    (h : childRefsOk s) : childRefsOk ((people env s id).2.1) := by
  cases hp : env.people id with
  | none =>
    have hs : (people env s id).2.1 = s := by simp [people, hp]
    rw [hs]; exact h
  | some pr =>
    cases ht : truthyOpt (findByName s.partnerTab PersonParams.name pr.name) with
    | true =>
      have hs : (people env s id).2.1 = s := by simp [people, hp, ht]
      rw [hs]; exact h
    | false =>
      rcases hpl : planet env s (parseTrailing pr.homeworld) with ⟨pres, s1, ptr⟩
      have hparttab : s1.partnerTab = s.partnerTab := by
        have h0 := planet_partnerTab env s (parseTrailing pr.homeworld)
        rw [hpl] at h0
        exact h0
      have hext : ∃ ext, s1.planetTab = s.planetTab ++ ext := by
        have h0 := planet_planetTab_ext env s (parseTrailing pr.homeworld)
        rw [hpl] at h0
        exact h0
      rcases hext with ⟨ext, hext⟩
      have hs1 : childRefsOk s1 := by
        intro r hr
        rw [hparttab] at hr
        rcases h r hr with hnone | hok
        · exact Or.inl hnone
        · right
          rcases hpr : r.2.planet with _ | pid
          · simp [refOk, hpr] at hok
          · rw [refOk, hpr] at hok ⊢
            rw [hext]
            exact anyId_append_left hok
      cases pres with
      | error e0 =>
        have hs : (people env s id).2.1 = s1 := by simp [people, hp, ht, hpl]
        rw [hs]; exact hs1
      | ok planetId =>
        cases hi : env.images id with
        | none =>
          have hs : (people env s id).2.1 = s1 := by simp [people, hp, ht, hpl, hi]
          rw [hs]; exact hs1
        | some bs =>
          cases hce : env.partnerCreateErr with
          | true =>
            have hs : (people env s id).2.1 = s1 := by
              simp [people, hp, ht, hpl, hi, hce]
            rw [hs]; exact hs1
          | false =>
            have hs : (people env s id).2.1 =
                ⟨s1.planetTab,
                 s1.partnerTab ++ [(s1.nextId, ⟨pr.name, b64encode bs, planetId⟩)],
                 s1.nextId + 1⟩ := by
              simp [people, hp, ht, hpl, hi, hce]
            rw [hs]
            intro r hr
            rcases List.mem_append.mp hr with hold | hnew
            · rcases hs1 r hold with hnone | hok
              · exact Or.inl hnone
              · right
                rcases hpr : r.2.planet with _ | pid
                · simp [refOk, hpr] at hok
                · rw [refOk, hpr] at hok ⊢
                  exact hok
            · rcases List.mem_singleton.mp hnew with rfl
              cases planetId with
              | none => exact Or.inl rfl
              | some n =>
                right
                have h8 := planet_ok_mem env s (parseTrailing pr.homeworld) n
                  (by rw [hpl])
                rw [hpl] at h8
                exact h8

/-! ## Lemmas about the run loop and the whole run -/

lemma runPeople_childRefsOk (env : Env) (ids : List Nat) (s : Sink)
    (h : childRefsOk s) : childRefsOk ((runPeople env ids s).2.1) := by
  induction ids generalizing s with
  | nil => simpa [runPeople] using h
  | cons id rest ih =>
    rcases hp : people env s id with ⟨r, s1, tr⟩
    have h1 : childRefsOk s1 := by
      have h0 := people_childRefsOk env s id h
      rw [hp] at h0
      exact h0
    cases r with
    | error e0 =>
      have hs : (runPeople env (id :: rest) s).2.1 = s1 := by simp [runPeople, hp]
      rw [hs]; exact h1
    | ok v =>
      rcases hr : runPeople env rest s1 with ⟨r2, s2, tr2⟩
      have h2 := ih s1 h1
      rw [hr] at h2
      have hs : (runPeople env (id :: rest) s).2.1 = s2 := by
        simp [runPeople, hp, hr]
      rw [hs]; exact h2

lemma runPeople_createPlanet_norm (env : Env) (ids : List Nat) (s : Sink)
    (q : PlanetParams) (hq : Ev.createPlanet q ∈ (runPeople env ids s).2.2) :
    planetNormOk q = true := by
  induction ids generalizing s with
  | nil => simp [runPeople] at hq
  | cons id rest ih =>
    rcases hp : people env s id with ⟨r, s1, tr⟩
    have htr : Ev.createPlanet q ∈ tr → planetNormOk q = true := by
      intro hx
      have h0 := people_createPlanet_norm env s id q
      rw [hp] at h0
      exact h0 hx
    cases r with
    | error e0 =>
      have hs : (runPeople env (id :: rest) s).2.2 = tr := by simp [runPeople, hp]
      rw [hs] at hq
      exact htr hq
    | ok v =>
      rcases hr : runPeople env rest s1 with ⟨r2, s2, tr2⟩
      have hs : (runPeople env (id :: rest) s).2.2 = tr ++ tr2 := by
        simp [runPeople, hp, hr]
      rw [hs] at hq
      rcases List.mem_append.mp hq with h4 | h5
      · exact htr h4
      · have h6 := ih s1
        rw [hr] at h6
        exact h6 h5

lemma processData_childRefsOk (env : Env) :
    childRefsOk ((processData env sink0).2.1) := by
  have h0 : childRefsOk sink0 := by
    intro r hr
    simp [sink0] at hr
  cases ha : truthyOpt env.authUid with
  | false =>
    have hs : (processData env sink0).2.1 = sink0 := by simp [processData, ha]
    rw [hs]; exact h0
  | true =>
    rcases hr : runPeople env (List.range' 1 env.peopleCount) sink0 with ⟨r2, s2, tr⟩
    have h2 := runPeople_childRefsOk env (List.range' 1 env.peopleCount) sink0 h0
    rw [hr] at h2
    have hs : (processData env sink0).2.1 = s2 := by simp [processData, ha, hr]
    rw [hs]; exact h2

lemma processData_createPlanet_norm (env : Env) (s : Sink) (q : PlanetParams)
    (hq : Ev.createPlanet q ∈ (processData env s).2.2) : planetNormOk q = true := by
  cases ha : truthyOpt env.authUid with
  | false =>
    have hs : (processData env s).2.2 = [Ev.login] := by simp [processData, ha]
    rw [hs] at hq
    simp at hq
  | true =>
    rcases hr : runPeople env (List.range' 1 env.peopleCount) s with ⟨r2, s2, tr⟩
    have hs : (processData env s).2.2 = Ev.login :: tr := by
      simp [processData, ha, hr]
    rw [hs] at hq
    rcases List.mem_cons.mp hq with hbad | h5
    · exact absurd hbad (by simp)
    · have h6 := runPeople_createPlanet_norm env (List.range' 1 env.peopleCount) s q
      rw [hr] at h6
      exact h6 h5

/-! ## Lemmas about the image-batch dictionary -/

lemma collectInto_eq (l : List (Nat × Option Img)) (m : Nat → Option (Option Img))
    (k : Nat) (v : Option Img)
    (hall : ∀ p ∈ l, p.1 = k → p.2 = v)
    (hex : (∃ p, p ∈ l ∧ p.1 = k) ∨ m k = some v) :
    collectInto m l k = some v := by
  induction l generalizing m with
  | nil =>
    rcases hex with ⟨p, hp, _⟩ | hm
    · simp at hp
    · simpa [collectInto] using hm
  | cons p rest ih =>
    show collectInto (fun j => if j = p.1 then some p.2 else m j) rest k = some v
    apply ih
    · exact fun q hq hqk => hall q (List.mem_cons_of_mem p hq) hqk
    · rcases hex with ⟨q, hq, hqk⟩ | hm
      · rcases List.mem_cons.mp hq with rfl | hq2
        · right
          have hv := hall q (List.mem_cons_self q rest) hqk
          simp [hqk, hv]
        · exact Or.inl ⟨q, hq2, hqk⟩
      · right
        by_cases hk : k = p.1
        · have hv := hall p (List.mem_cons_self p rest) hk.symm
          simp [hk, hv]
        · simp [hk, hm]

/-! ## Claim theorems -/

/-- C1 (amended).  There is no run-wide two-phase barrier (see the
counterexample), but each child task resolves its parent inline: in the
trace of a single `people` task, a child-record creation can only be the
very last event, so the inline planet fetch/upsert of that task has always
completed before the child record is created. -/
theorem c1_child_create_last (env : Env) (s : Sink) (id : Nat) (e : Ev)
    (he : e ∈ ((people env s id).2.2).dropLast) : isChildCreate e = false :=
  people_no_childCreate_before_last env s id e he

/-- Witness for `c1_child_create_last` at a concrete dataset. -/
theorem c1_child_create_last_witness :
    Ev.fetchImage 1 ∈ ((people cEnvA sink0 1).2.2).dropLast ∧
    isChildCreate (Ev.fetchImage 1) = false :=
  ⟨by decide, c1_child_create_last cEnvA sink0 1 (Ev.fetchImage 1) (by decide)⟩

/-- C2 (amended).  For every dataset, every child record created by a run
started against an empty sink references an existing planet row of the
final sink, or carries a null parent reference (the latter occurs exactly
when the referenced parent fetch failed; see the counterexample). -/
theorem c2_child_ref_null_or_existing (env : Env) (r : Nat × PersonParams)
    (hr : r ∈ ((processData env sink0).2.1).partnerTab) :
    r.2.planet = none ∨ refOk ((processData env sink0).2.1) r.2 = true :=
  processData_childRefsOk env r hr

/-- Witness for `c2_child_ref_null_or_existing` at a concrete dataset. -/
theorem c2_child_ref_null_or_existing_witness :
    ((2 : Nat), (⟨"Luke", b64encode [1, 2], some 1⟩ : PersonParams)) ∈
      ((processData cEnvA sink0).2.1).partnerTab ∧
    (((2 : Nat), (⟨"Luke", b64encode [1, 2], some 1⟩ : PersonParams)).2.planet = none ∨
      refOk ((processData cEnvA sink0).2.1)
        ((2 : Nat), (⟨"Luke", b64encode [1, 2], some 1⟩ : PersonParams)).2 = true) :=
  ⟨by decide, c2_child_ref_null_or_existing cEnvA _ (by decide)⟩

/-- C3 (amended).  When a child's parent reference cannot be resolved (the
planet fetch returns nothing) the child is NOT skipped: provided its image
decodes and the sink accepts the create, its record is created with a null
`planet` field, and the run continues. -/
theorem c3_unresolved_parent_creates_null_ref (env : Env) (s : Sink) (id : Nat)
    (pr : PersonRec) (bs : Img)
    (h1 : env.people id = some pr)
    (h2 : truthyOpt (findByName s.partnerTab PersonParams.name pr.name) = false)
    (h3 : env.planets (parseTrailing pr.homeworld) = none)
    (h4 : env.images id = some bs)
    (h5 : env.partnerCreateErr = false) :
    people env s id =
      (Except.ok (some s.nextId),
       ⟨s.planetTab,
        s.partnerTab ++ [(s.nextId, ⟨pr.name, b64encode bs, none⟩)],
        s.nextId + 1⟩,
       [Ev.fetchPerson id, Ev.findPartner pr.name,
        Ev.fetchPlanet (parseTrailing pr.homeworld), Ev.fetchImage id,
        Ev.createPartner ⟨pr.name, b64encode bs, none⟩]) := by
  simp [people, planet, h1, h2, h3, h4, h5]

/-- Witness for `c3_unresolved_parent_creates_null_ref` at a concrete
dataset. -/
theorem c3_unresolved_parent_creates_null_ref_witness :
    cEnvB.people 1 = some ⟨"Luke", "x/9"⟩ ∧
    people cEnvB sink0 1 =
      (Except.ok (some 1),
       ⟨[], [(1, ⟨"Luke", b64encode [7], none⟩)], 2⟩,
       [Ev.fetchPerson 1, Ev.findPartner "Luke", Ev.fetchPlanet "9",
        Ev.fetchImage 1, Ev.createPartner ⟨"Luke", b64encode [7], none⟩]) :=
  ⟨by decide,
   c3_unresolved_parent_creates_null_ref cEnvB sink0 1 ⟨"Luke", "x/9"⟩ [7]
     (by decide) (by decide) (by decide) (by decide) (by decide)⟩

/-- C5 (confirmed).  The upsert is idempotent for both models: when the
natural key (name) of a fetched record is already present in the sink,
`DataProcessor.planet` / `DataProcessor.people` return the existing sink id,
leave the sink unchanged, and perform no create call (the trace holds only
the fetch and the search). -/
theorem c5_upsert_idempotent (env : Env) (s : Sink) :
    (∀ key pr n, env.planets key = some pr →
      findByName s.planetTab PlanetParams.name pr.name = some n → n ≠ 0 →
      planet env s key =
        (Except.ok (some n), s, [Ev.fetchPlanet key, Ev.findPlanet pr.name])) ∧
    (∀ id pr n, env.people id = some pr →
      findByName s.partnerTab PersonParams.name pr.name = some n → n ≠ 0 →
      people env s id =
        (Except.ok (some n), s, [Ev.fetchPerson id, Ev.findPartner pr.name])) := by
  constructor
  · intro key pr n h1 h2 h3
    have ht : truthyOpt (some n) = true := by simpa [truthyOpt] using h3
    simp [planet, h1, h2, ht]
  · intro id pr n h1 h2 h3
    have ht : truthyOpt (some n) = true := by simpa [truthyOpt] using h3
    simp [people, h1, h2, ht]

/-- Witness for `c5_upsert_idempotent` on a pre-populated sink. -/
theorem c5_upsert_idempotent_witness :
    planet cEnvW sW "1" =
      (Except.ok (some 4), sW, [Ev.fetchPlanet "1", Ev.findPlanet "Tatooine"]) ∧
    people cEnvW sW 1 =
      (Except.ok (some 5), sW, [Ev.fetchPerson 1, Ev.findPartner "Luke"]) :=
  ⟨(c5_upsert_idempotent cEnvW sW).1 "1"
      ⟨"Tatooine", "10465", "200000", "23", "304"⟩ 4 (by decide) (by decide)
      (by decide),
   (c5_upsert_idempotent cEnvW sW).2 1 ⟨"Luke", "x/1"⟩ 5 (by decide) (by decide)
      (by decide)⟩

/-- C6 (amended).  Authentication failure aborts the run before any write:
the result is the authentication error, the sink is returned unchanged, and
the only external call in the trace is the login attempt.  (Per the
counterexample, other per-item failures abort the run as well, so "aborts
only on authentication failure" does not hold.) -/
theorem c6_auth_failure_aborts_before_write (env : Env) (s : Sink)
    (h : truthyOpt env.authUid = false) :
    processData env s = (Except.error Err.authError, s, [Ev.login]) := by
  simp [processData, h]

/-- Witness for `c6_auth_failure_aborts_before_write`. -/
theorem c6_auth_failure_aborts_before_write_witness :
    truthyOpt cEnvAuthFail.authUid = false ∧
    processData cEnvAuthFail sink0 =
      (Except.error Err.authError, sink0, [Ev.login]) :=
  ⟨by decide, c6_auth_failure_aborts_before_write cEnvAuthFail sink0 (by decide)⟩

/-- C7 (amended).  In every planet create payload that reaches the sink
during any run, the four numeric fields (diameter, population,
rotation_period, orbital_period) never carry the literal string
`"unknown"` — they are normalised to absent.  (The `name` field and the
person payload are sent unnormalised; see the counterexample.) -/
theorem c7_numeric_fields_normalised (env : Env) (s : Sink) (q : PlanetParams)
    (hq : Ev.createPlanet q ∈ (processData env s).2.2) : planetNormOk q = true :=
  processData_createPlanet_norm env s q hq

/-- Witness for `c7_numeric_fields_normalised`: Alderaan's population is
`"unknown"` in the source and `none` in the outgoing payload. -/
theorem c7_numeric_fields_normalised_witness :
    Ev.createPlanet ⟨"Alderaan", some "12500", none, some "24", some "364"⟩ ∈
      (processData cEnvA sink0).2.2 ∧
    planetNormOk ⟨"Alderaan", some "12500", none, some "24", some "364"⟩ = true :=
  ⟨by decide, c7_numeric_fields_normalised cEnvA sink0 _ (by decide)⟩

/-- C8 (amended).  For every received response, `SWAPI.fetch_data` returns
(without raising) exactly what `fetch_planet_info` returns: the decoded body
on status 200 and null on every other status — so null is returned on every
non-200 status (404 and 5xx alike), not exactly on 404, and no fetch error
is raised for a received response. -/
theorem c8_null_on_every_non_200 (r : HttpResp) :
    fetchData (NetResult.resp r) = Except.ok (fetchPlanetInfo (NetResult.resp r)) ∧
    (fetchPlanetInfo (NetResult.resp r) = none ↔ r.status ≠ 200) := by
  by_cases h : r.status = 200 <;> simp [fetchData, fetchPlanetInfo, h]

/-- C9 (confirmed).  The image batch fetch returns results keyed by source
id: whatever completion order the concurrent per-id tasks finish in (any
permutation of the tagged task results), the returned list holds, at the
position of each input id, exactly that id's fetch-and-validate outcome. -/
theorem c9_results_keyed_by_id (env : Env) (ids : List Nat)
    (completed : List (Nat × Option Img))
    (h : completed.Perm (ids.map (fun id => fetchAndValidate env id))) :
    swimgGetDataList ids completed = ids.map (fun id => some (env.images id)) := by
  unfold swimgGetDataList
  apply List.map_congr_left
  intro id hid
  apply collectInto_eq
  · intro p hp hpk
    rcases List.mem_map.mp (h.mem_iff.mp hp) with ⟨i, hi, hpi⟩
    subst hpi
    simp [fetchAndValidate] at hpk ⊢
    rw [hpk]
  · exact Or.inl ⟨(id, env.images id),
      h.mem_iff.mpr (List.mem_map_of_mem _ hid), rfl⟩

/-- Witness for `c9_results_keyed_by_id`: tasks complete in reversed order,
with one invalid image among them, and the output is still input-ordered. -/
theorem c9_results_keyed_by_id_witness :
    ([((2 : Nat), (none : Option Img)), (1, some [10])]).Perm
      ([1, 2].map (fun id => fetchAndValidate cEnvF id)) ∧
    swimgGetDataList [1, 2] [(2, none), (1, some [10])] =
      [some (some [10]), some none] :=
  ⟨List.Perm.swap (1, some [10]) (2, none) [],
   c9_results_keyed_by_id cEnvF [1, 2] [(2, none), (1, some [10])]
     (List.Perm.swap (1, some [10]) (2, none) [])⟩

/-- C10 (confirmed).  When a child's natural key is already present in the
sink, the child migration returns the existing sink id with the sink
unchanged, and performs no further external calls: no asset fetch, no
parent fetch or upsert, and no create call appear in its trace. -/
theorem c10_existing_child_no_calls (env : Env) (s : Sink) (id : Nat)
    (pr : PersonRec) (n : Nat)
    (h1 : env.people id = some pr)
    (h2 : findByName s.partnerTab PersonParams.name pr.name = some n)
    (h3 : n ≠ 0) :
    people env s id =
      (Except.ok (some n), s, [Ev.fetchPerson id, Ev.findPartner pr.name]) ∧
    ∀ e ∈ (people env s id).2.2,
      isParentEv e = false ∧ isChildCreate e = false ∧ isFetchImage e = false := by
  have ht : truthyOpt (some n) = true := by simpa [truthyOpt] using h3
  have hmain : people env s id =
      (Except.ok (some n), s, [Ev.fetchPerson id, Ev.findPartner pr.name]) := by
    simp [people, h1, h2, ht]
  refine ⟨hmain, ?_⟩
  intro e he
  rw [hmain] at he
  rcases List.mem_cons.mp he with rfl | h4
  · exact ⟨rfl, rfl, rfl⟩
  rcases List.mem_cons.mp h4 with rfl | h5
  · exact ⟨rfl, rfl, rfl⟩
  · simp at h5

/-- Witness for `c10_existing_child_no_calls` on a pre-populated sink. -/
theorem c10_existing_child_no_calls_witness :
    people cEnvW sW 1 =
      (Except.ok (some 5), sW, [Ev.fetchPerson 1, Ev.findPartner "Luke"]) :=
  (c10_existing_child_no_calls cEnvW sW 1 ⟨"Luke", "x/1"⟩ 5 (by decide)
    (by decide) (by decide)).1
